import Mathlib

/-!
Verification of the query-construction and analytics core of the
`tfpr_backend_adapter` repository (FastAPI service over a DuckDB-backed
`VirtualDB`).  The definitions below are a shallow embedding of
`app/routers/query.py`, `app/routers/analysis.py` and
`app/routers/_query_utils.py`; the external query engine (`VirtualDB`) is
modelled as explicit data supplied to each operation.
-/

namespace TFBP

/-! ## Identifier validation (`_validate_identifier`, regex `^[A-Za-z_][A-Za-z0-9_]*$`)

The source checks `re.match(r"^[A-Za-z_][A-Za-z0-9_]*$", name)`.  We embed
Python `re` semantics faithfully: `$` matches at the end of the string *or
just before a single trailing newline*. -/

/-- `[A-Za-z_]`: a valid first character of a SQL identifier. -/
def isIdentStart (c : Char) : Bool :=
  (('A' ≤ c && c ≤ 'Z') || ('a' ≤ c && c ≤ 'z') || c = '_')

/-- `[A-Za-z0-9_]`: a valid non-first character of a SQL identifier. -/
def isIdentChar (c : Char) : Bool :=
  isIdentStart c || ('0' ≤ c && c ≤ '9')

/-- Matcher for `[A-Za-z0-9_]*$` under Python `re` semantics: at each
position the star either consumes an identifier character, or stops and `$`
must match — which Python allows at the true end of the string or just
before exactly one trailing newline. -/
def pyIdentTail : List Char → Bool
  | [] => true
  | c :: cs => (isIdentChar c && pyIdentTail cs) || (c == '\n' && cs.isEmpty)

/-- `re.match(r"^[A-Za-z_][A-Za-z0-9_]*$", s)` succeeds (Python semantics). -/
def pyIdentMatch (s : String) : Bool :=
  match s.data with
  | [] => false
  | c :: cs => isIdentStart c && pyIdentTail cs

/-- Matcher for `[A-Za-z0-9_]*` followed by the true end of the string: the
language the spec describes ("nothing else in the string"). -/
def specIdentTail : List Char → Bool
  | [] => true
  | c :: cs => isIdentChar c && specIdentTail cs

/-- The spec's identifier language: first char `[A-Za-z_]`, all later chars
`[A-Za-z0-9_]`, nothing else in the string. -/
def specIdentMatch (s : String) : Bool :=
  match s.data with
  | [] => false
  | c :: cs => isIdentStart c && specIdentTail cs

/-- Error values raised by the embedded core (each constructor corresponds to
one `raise`/`HTTPException` site of the source). -/
inductive Err where
  /-- `_validate_identifier`: `ValueError(f"Invalid identifier: {name!r}")`. -/
  | invalidIdentifier (name : String)
  /-- `_build_where_sql`: `ValueError(... min_value ... greater than max_value ...)`. -/
  | invalidRange (dataset field : String)
  /-- `_resolve_regulator_identifier`: `ValueError("No regulator identifier field found ...")`. -/
  | noRegulatorField (table : String)
  /-- `_resolve_sample_identifier`: `ValueError("No sample identifier field found ...")`. -/
  | noSampleField (table : String)
  /-- `compute_intersection`: `ValueError("No regulator metadata found for dataset ... Checked tables: ...")`. -/
  | noRegulatorMetadata (dataset : String) (checked : List String)
  /-- an uncaught exception escaping `vdb.get_fields(table)` on an unregistered table. -/
  | engineError (table : String)
  /-- `HTTPException(400, "Dataset ... not found")`. -/
  | datasetNotFound (dataset : String)
  /-- `HTTPException(400, "Column ... not found in ...")`. -/
  | columnNotFound (column dataset : String)
  /-- `HTTPException(400, "Cannot resolve regulator identifier: ...")`. -/
  | cannotResolveRegulator (dataset : String)
  /-- `HTTPException(400, "Invalid group_by value: ...")`. -/
  | invalidGroupBy (value : String)
deriving DecidableEq, Repr

/-- `_validate_identifier(name)`: return `name` unchanged when the Python
regex matches, else raise `Invalid identifier`. -/
def validateIdentifier (name : String) : Except Err String :=
  if pyIdentMatch name then .ok name else .error (.invalidIdentifier name)

/-! ## Regulator / sample identifier resolution -/

/-- `_REGULATOR_IDENTIFIER_CANDIDATES` (identical in `query.py` and `_query_utils.py`). -/
def regulatorIdentifierCandidates : List String :=
  ["regulator", "tf", "regulator_symbol", "regulator_locus_tag", "gene_symbol"]

/-- `_SAMPLE_IDENTIFIER_CANDIDATES` in `query.py` (no `"id"` fallback). -/
def sampleIdentifierCandidates : List String :=
  ["sample_id", "sra_accession"]

/-- `_SAMPLE_IDENTIFIER_CANDIDATES` in `_query_utils.py` (includes `"id"`). -/
def sampleIdentifierCandidatesUtils : List String :=
  ["sample_id", "sra_accession", "id"]

/-- `_resolve_regulator_identifier(fields, table)`: first candidate present
in `fields`, else `ValueError`. -/
def resolveRegulatorIdentifier (fields : List String) (table : String) :
    Except Err String :=
  match regulatorIdentifierCandidates.find? (fun c => fields.contains c) with
  | some c => .ok c
  | none => .error (.noRegulatorField table)

/-- `_resolve_sample_identifier(fields, table)` as defined in `query.py`. -/
def resolveSampleIdentifier (fields : List String) (table : String) :
    Except Err String :=
  match sampleIdentifierCandidates.find? (fun c => fields.contains c) with
  | some c => .ok c
  | none => .error (.noSampleField table)

/-- `_resolve_join_sample_identifier(fields, table, preferred)`. -/
def resolveJoinSampleIdentifier (fields : List String) (table : String)
    (preferred : Option String) : Except Err String :=
  match preferred with
  | some p => if fields.contains p then .ok p
              else resolveSampleIdentifier fields table
  | none => resolveSampleIdentifier fields table

/-! ## Filter specification (`IntersectionRequest` of `app/schemas.py`)

Python dicts are embedded as ordered association lists (a JSON object's
entries in order, keys unique as in any `dict`). -/

/-- `NumericRangeFilter`: inclusive numeric range, either bound optional.
Numeric values are embedded as rationals. -/
structure NumericRangeFilter where
  min_value : Option ℚ
  max_value : Option ℚ
deriving DecidableEq, Repr

/-- `IntersectionRequest`: dataset list, categorical filters
(dataset → field → values) and numeric filters (dataset → field → range). -/
structure IntersectionRequest where
  datasets : List String
  filters : List (String × List (String × List String))
  numeric_filters : List (String × List (String × NumericRangeFilter))
deriving Repr

/-- `dict.get(key, default)` on an association list. -/
def alistGetD {α : Type} (l : List (String × α)) (key : String) (dflt : α) : α :=
  match l.find? (fun p => p.1 = key) with
  | some p => p.2
  | none => dflt

/-- `str(v).replace("'", "''")`: escape a value by doubling single quotes. -/
def escapeSqlValue (v : String) : String :=
  v.replace "'" "''"

/-- One iteration of the categorical loop of `_build_where_sql`: validate
the field, drop empty-string values, escape the rest, and append
`field IN (...)` when any value remains. -/
def categoricalStep (acc : List String) (p : String × List String) :
    Except Err (List String) := do
  let field ← validateIdentifier p.1
  let escaped := (p.2.filter (fun v => v ≠ "")).map escapeSqlValue
  if escaped.isEmpty then
    pure acc
  else
    let value_list := ", ".intercalate (escaped.map (fun v => "'" ++ v ++ "'"))
    pure (acc ++ [field ++ " IN (" ++ value_list ++ ")"])

/-- The categorical-filters part of the `where_clauses` loop of
`_build_where_sql`, over one dataset's entries. -/
def categoricalClauses (filters : List (String × List String))
    (init : List String) : Except Err (List String) :=
  filters.foldlM categoricalStep init

/-- One iteration of the numeric loop of `_build_where_sql` (`showNum`
renders a Python float literal).  Mirrors the source: the `>=`/`<=` clauses
are appended before the `min > max` check raises. -/
def numericStep (showNum : ℚ → String) (dataset : String)
    (acc : List String) (p : String × NumericRangeFilter) :
    Except Err (List String) := do
  let field ← validateIdentifier p.1
  let acc := if let some m := p.2.min_value
    then acc ++ [field ++ " >= " ++ showNum m] else acc
  let acc := if let some m := p.2.max_value
    then acc ++ [field ++ " <= " ++ showNum m] else acc
  match p.2.min_value, p.2.max_value with
  | some mn, some mx =>
    if mn > mx then throw (Err.invalidRange dataset field) else pure acc
  | _, _ => pure acc

/-- The numeric-filters part of the `where_clauses` loop of
`_build_where_sql`, over one dataset's entries. -/
def numericClauses (showNum : ℚ → String) (dataset : String)
    (filters : List (String × NumericRangeFilter)) (init : List String) :
    Except Err (List String) :=
  filters.foldlM (numericStep showNum dataset) init

/-- The `where_clauses` list accumulated by `_build_where_sql(body, dataset_name)`. -/
def whereClauses (showNum : ℚ → String) (body : IntersectionRequest)
    (dataset_name : String) : Except Err (List String) := do
  let acc ← categoricalClauses (alistGetD body.filters dataset_name []) []
  numericClauses showNum dataset_name
    (alistGetD body.numeric_filters dataset_name []) acc

/-- `_build_where_sql(body, dataset_name)`: the final clause string, empty
when no clause was produced, else prefixed with `" WHERE "` and joined with
`" AND "`. -/
def buildWhereSql (showNum : ℚ → String) (body : IntersectionRequest)
    (dataset_name : String) : Except Err String := do
  let clauses ← whereClauses showNum body dataset_name
  if clauses.isEmpty then pure ""
  else pure (" WHERE " ++ " AND ".intercalate clauses)

/-! ## Dataset catalog (`app/dataset_catalog.py`)

Only the `db_name` of each item and of its supplemental configs is consulted
by `_candidate_regulator_tables`; the embedded catalog records exactly that. -/

/-- `DATASET_CATALOG`, restricted to `db_name` and the supplemental
`db_name`s in declared order. -/
def datasetCatalog : List (String × List String) :=
  [ ("hackett", []),
    ("kemmeren", []),
    ("harbison", []),
    ("hughes_overexpression", []),
    ("hughes_knockout", []),
    ("hu_reimand", []),
    ("mahendrawada_chec", []),
    ("mahendrawada_chec_replicates", ["mahendrawada_chec_replicates_regmeta"]),
    ("mahendrawada_chec_combined", ["mahendrawada_chec_combined_regmeta"]),
    ("mahendrawada_rna", []),
    ("mahendrawada_rna_reprocessed", []),
    ("mahendrawada_degron", ["mahendrawada_degron_regmeta"]),
    ("mahendrawada_mnase_fusion", ["mahendrawada_mnase_fusion_regmeta"]),
    ("mahendrawada_wt_baseline", []),
    ("mahendrawada_wt_degron_control", []),
    ("rossi_replicates", ["rossi_replicates_regmeta"]),
    ("rossi_combined", ["rossi_combined_regmeta"]) ]

/-- `_candidate_regulator_tables(dataset_name)`: `<dataset>_meta`, then for
each supplemental config `<db_name>_meta` followed by `<db_name>`. -/
def candidateRegulatorTables (dataset_name : String) : List String :=
  let base := [dataset_name ++ "_meta"]
  match datasetCatalog.find? (fun p => p.1 = dataset_name) with
  | none => base
  | some item =>
    base ++ item.2.flatMap (fun s => [s ++ "_meta", s])

/-! ## The external query engine (`VirtualDB`), for the intersection endpoint

`get_fields(table)` raises for a table absent from the live schema: it is
modelled as `Option`.  The result of an issued regulator SQL text is the
`regulator` column of the returned frame, with `NULL`s as `none`. -/

/-- Model of the shared `VirtualDB` handle, as used by `compute_intersection`. -/
structure VDB where
  /-- `vdb.get_fields(table)`; `none` models the raised exception for a
  table that is not registered in the live schema. -/
  getFields : String → Option (List String)
  /-- `vdb.query(sql)["regulator"]` for a regulator-set query text: the
  column values, `NULL` as `none`. -/
  queryRegs : String → List (Option String)

/-- The candidate-walk of `compute_intersection` (the `for table in
_candidate_regulator_tables(ds_name)` loop): skip tables whose
`get_fields` raises and tables with no resolvable regulator field; for the
first resolving candidate build and return the regulator-set SQL.
`checked` accumulates the visited table names, `memo` is the lazily
resolved `base_sample_field`. -/
def regulatorSqlWalk (vdb : VDB) (ds_name base_meta_table : String)
    (base_fields : List String) (where_sql : String) :
    List String → List String → Option String → Except Err String
  | [], checked, _ => .error (.noRegulatorMetadata ds_name checked)
  | t :: rest, checked, memo => do
    let table ← validateIdentifier t
    let checked := checked ++ [table]
    match vdb.getFields table with
    | none =>
      regulatorSqlWalk vdb ds_name base_meta_table base_fields where_sql rest checked memo
    | some fields =>
      match resolveRegulatorIdentifier fields table with
      | .error _ =>
        regulatorSqlWalk vdb ds_name base_meta_table base_fields where_sql rest checked memo
      | .ok regulator_field =>
        if table = base_meta_table then
          pure ("SELECT DISTINCT " ++ regulator_field ++ " AS regulator FROM "
            ++ table ++ where_sql)
        else do
          let base_sample_field ← match memo with
            | some b => pure b
            | none => resolveSampleIdentifier base_fields base_meta_table
          let source_sample_field ←
            resolveJoinSampleIdentifier fields table (some base_sample_field)
          let filtered_samples_sql :=
            "SELECT DISTINCT " ++ base_sample_field ++ " AS __sample_id FROM "
              ++ base_meta_table ++ where_sql
          pure ("SELECT DISTINCT src." ++ regulator_field
            ++ " AS regulator FROM " ++ table ++ " AS src JOIN ("
            ++ filtered_samples_sql ++ ") AS f ON CAST(src."
            ++ source_sample_field ++ " AS VARCHAR) = CAST(f.__sample_id AS VARCHAR)")

/-- The per-dataset body of `compute_intersection`'s first loop: resolve the
base metadata table, build the filter clause, walk the candidate tables,
and collect the deduplicated, string-normalized, non-null regulator set. -/
def resolveDatasetRegulators (showNum : ℚ → String) (vdb : VDB)
    (body : IntersectionRequest) (ds_name : String) :
    Except Err (Finset String) := do
  let base_meta_table ← validateIdentifier (ds_name ++ "_meta")
  let base_fields ← match vdb.getFields base_meta_table with
    | some f => pure f
    | none => throw (Err.engineError base_meta_table)
  let where_sql ← buildWhereSql showNum body ds_name
  let sql ← regulatorSqlWalk vdb ds_name base_meta_table base_fields where_sql
    (candidateRegulatorTables ds_name) [] none
  pure ((vdb.queryRegs sql).filterMap id).toFinset

/-- `IntersectionCell` of `app/schemas.py`. -/
structure IntersectionCell where
  row : String
  col : String
  count : ℕ
deriving DecidableEq, Repr

/-- Last-binding dictionary lookup with a default (`dict` assignment
overwrites, `.get(k, default)`). -/
def alistGetLastD {α : Type} (l : List (String × α)) (key : String)
    (dflt : α) : α :=
  match l.reverse.find? (fun p => p.1 = key) with
  | some p => p.2
  | none => dflt

/-- The pairwise-cell loop of `compute_intersection`: for indices `i ≤ j`,
emit a cell whose count is the set cardinality on the diagonal and the
intersection cardinality off it. -/
def intersectionCells (names : List String) (S : String → Finset String) :
    List IntersectionCell :=
  names.enum.flatMap (fun ia =>
    names.enum.filterMap (fun jb =>
      if jb.1 < ia.1 then none
      else if ia.1 = jb.1 then some ⟨ia.2, jb.2, (S ia.2).card⟩
      else some ⟨ia.2, jb.2, ((S ia.2) ∩ (S jb.2)).card⟩))

/-- One iteration of the regulator-set loop of `compute_intersection`:
resolve the dataset's set and record it under the dataset's name
(`regulator_sets[ds_name] = ...`). -/
def regulatorSetsStep (showNum : ℚ → String) (vdb : VDB)
    (body : IntersectionRequest) (acc : List (String × Finset String))
    (ds : String) : Except Err (List (String × Finset String)) := do
  let s ← resolveDatasetRegulators showNum vdb body ds
  pure (acc ++ [(ds, s)])

/-- `compute_intersection(body, vdb, lock)`: validate dataset names, build
the per-dataset regulator sets (failing the whole request on the first
unresolvable dataset), then emit the upper-triangle matrix. -/
def computeIntersection (showNum : ℚ → String) (vdb : VDB)
    (body : IntersectionRequest) : Except Err (List IntersectionCell) := do
  let dataset_names ← body.datasets.mapM validateIdentifier
  let regulator_sets ← dataset_names.foldlM
    (regulatorSetsStep showNum vdb body) ([] : List (String × Finset String))
  pure (intersectionCells dataset_names
    (fun ds => alistGetLastD regulator_sets ds ∅))

/-! ## Schema introspection and filter-option derivation -/

/-- `_NUMERIC_TYPE_TOKENS` (identical in `query.py` and `_query_utils.py`). -/
def numericTypeTokens : List String :=
  ["TINYINT", "SMALLINT", "INTEGER", "BIGINT", "HUGEINT", "UTINYINT",
   "USMALLINT", "UINTEGER", "UBIGINT", "UHUGEINT", "REAL", "FLOAT",
   "DOUBLE", "DECIMAL", "NUMERIC"]

/-- `pat` is an initial segment of `s` (on character lists). -/
def listIsPrefixOf : List Char → List Char → Bool
  | [], _ => true
  | _ :: _, [] => false
  | a :: as, b :: bs => a == b && listIsPrefixOf as bs

/-- `pat` occurs contiguously inside `s` (on character lists). -/
def listContainsSub (pat : List Char) : List Char → Bool
  | [] => listIsPrefixOf pat []
  | c :: rest => listIsPrefixOf pat (c :: rest) || listContainsSub pat rest

/-- Python's `pat in s` on strings. -/
def strContainsSubstr (s pat : String) : Bool :=
  listContainsSub pat.data s.data

/-- `_is_numeric_column_type(column_type)`: false for `None`/empty, else
whether the uppercased type contains any numeric token. -/
def isNumericColumnType : Option String → Bool
  | none => false
  | some t =>
    if t = "" then false
    else numericTypeTokens.any (fun tok => strContainsSubstr t.toUpper tok)

/-- A `MIN`/`MAX` aggregate result cell as the engine hands it back:
SQL `NULL`, a float `NaN`, or a finite number (embedded as a rational). -/
inductive RawStat where
  | null
  | nan
  | num (q : ℚ)
deriving DecidableEq, Repr

/-- `_normalize_numeric_stat(value)`: `None` stays `None`, `NaN` becomes
`None`, a finite number is kept. -/
def normalizeNumericStat : RawStat → Option ℚ
  | .null => none
  | .nan => none
  | .num q => some q

/-- `FilterOption` of `app/schemas.py` (`kind` is encoded by the constructor). -/
inductive FilterOption where
  | categorical (field : String) (values : List String)
  | numeric (field : String) (min_value max_value : Option ℚ)
deriving DecidableEq, Repr

/-- Model of one table as seen by the introspection queries: its field
list, the declared-type map (`_column_type_map(...).get(field)`), the
`MIN`/`MAX` aggregates over non-null values, and the sorted distinct
non-null values (stringified) per field. -/
structure MetaTable where
  fields : List String
  typeMap : String → Option String
  minStat : String → RawStat
  maxStat : String → RawStat
  distinct : String → List String

/-- `filter_options(table)` of `app/routers/query.py` (endpoint
`GET /active-set/filter-options/{table}`): skip `sample_id`; emit a numeric
option unless both normalized bounds are `None`; otherwise emit a
categorical option with *all* distinct values whenever any exist. -/
def filterOptionsTable (t : MetaTable) : List FilterOption :=
  t.fields.filterMap (fun field =>
    if field = "sample_id" then none
    else if isNumericColumnType (t.typeMap field) then
      if normalizeNumericStat (t.minStat field) = none
          && normalizeNumericStat (t.maxStat field) = none then none
      else some (.numeric field (normalizeNumericStat (t.minStat field))
        (normalizeNumericStat (t.maxStat field)))
    else
      if (t.distinct field).isEmpty then none
      else some (.categorical field (t.distinct field)))

/-- The `metadata_fields` derivation of `source_summary` in
`app/routers/analysis.py`: skip `sample_id` and `sra_accession`; numeric
branch as in `filterOptionsTable`; non-numeric fields are enumerated only
when `COUNT(DISTINCT ...)` lies in `(0, 100]`, else omitted entirely. -/
def sourceSummaryMetadataFields (t : MetaTable) : List FilterOption :=
  t.fields.filterMap (fun field =>
    if field = "sample_id" || field = "sra_accession" then none
    else if isNumericColumnType (t.typeMap field) then
      if normalizeNumericStat (t.minStat field) = none
          && normalizeNumericStat (t.maxStat field) = none then none
      else some (.numeric field (normalizeNumericStat (t.minStat field))
        (normalizeNumericStat (t.maxStat field)))
    else
      if 0 < (t.distinct field).length && (t.distinct field).length ≤ 100 then
        some (.categorical field (t.distinct field))
      else none)

/-! ## Correlation matrix (`correlation_matrix` in `app/routers/analysis.py`)

The engine's `CORR` aggregate is external (DuckDB); it enters the embedding
as a function `corrFn` from the cross-product pair list to an optional
rational (`none` models an empty result frame or a `NULL`/`NaN` aggregate). -/

/-- Modelled from the spec: `CorrelationRequest` is imported by
`app/routers/analysis.py` from `app/schemas.py` but missing from that file;
per the spec it carries one dataset, a numeric value column, a grouping
mode and a maximum group count. -/
structure CorrelationRequest where
  db_name : String
  method : String
  value_column : String
  group_by : String
  max_items : ℕ

/-- Modelled from the spec: `CorrelationCell` (missing from
`app/schemas.py`): a `{row label, column label, value}` triple. -/
structure CorrelationCell where
  row : String
  col : String
  value : ℚ
deriving DecidableEq, Repr

/-- Modelled from the spec: `CorrelationMatrixResponse` (missing from
`app/schemas.py`): the label list and upper-triangle cells. -/
structure CorrelationMatrixResponse where
  db_name : String
  labels : List String
  cells : List CorrelationCell
  method : String
deriving DecidableEq, Repr

/-- Model of the `VirtualDB` handle as used by the analysis endpoints.
`rows tbl g v` is the `(g, v)` column projection of table `tbl` (group keys
stringified, `NULL` as `none`); `distinctOf tbl c` is the sorted distinct
non-null stringified value list of column `c`. -/
structure AnalysisVDB where
  tables : List String
  getFields : String → Option (List String)
  rows : String → String → String → List (Option String × Option ℚ)
  distinctOf : String → String → List String

/-- The rows with a non-null group key and a non-null value (the
`WHERE {group} IS NOT NULL AND {value} IS NOT NULL` restriction shared by
the top-items query and, via `=`/`IN` comparisons, the pair queries). -/
def qualRows (vdb : AnalysisVDB) (tbl g v : String) : List (String × ℚ) :=
  (vdb.rows tbl g v).filterMap (fun r =>
    match r with
    | (some k, some x) => some (k, x)
    | _ => none)

/-- The `vectors_sql` result for a pair: rows whose key is `a` or `b` and
whose value is non-null. -/
def pairRows (qual : List (String × ℚ)) (a b : String) : List (String × ℚ) :=
  qual.filter (fun r => r.1 = a || r.1 = b)

/-- One key's value vector (`WHERE {group} = '{label}' AND {value} IS NOT NULL`). -/
def keyVector (qual : List (String × ℚ)) (a : String) : List ℚ :=
  (qual.filter (fun r => r.1 = a)).map (fun r => r.2)

/-- The `CROSS JOIN` of the two value vectors fed to `CORR`. -/
def crossPairs (va vb : List ℚ) : List (ℚ × ℚ) :=
  va.flatMap (fun x => vb.map (fun y => (x, y)))

/-- The cell value for label pair `(i, a)`, `(j, b)`, together with a flag
recording whether a correlation query was issued for it: a self pair
(`i == j`) is `1.0` with no query; a cross pair with fewer than 2 combined
observations is `0.0` with no correlation query; otherwise the `CORR`
aggregate is consulted, with `NULL`/`NaN` (`none`) yielding `0.0`. -/
def correlationPairValue (corrFn : List (ℚ × ℚ) → Option ℚ)
    (qual : List (String × ℚ)) (i j : ℕ) (a b : String) : ℚ × Bool :=
  if i = j then (1, false)
  else if (pairRows qual a b).length < 2 then (0, false)
  else
    match corrFn (crossPairs (keyVector qual a) (keyVector qual b)) with
    | none => (0, true)
    | some c => (c, true)

/-- The upper-triangle cell loop of `correlation_matrix`, with the
issued-a-correlation-query flag kept alongside each cell. -/
def correlationCellsLog (corrFn : List (ℚ × ℚ) → Option ℚ)
    (qual : List (String × ℚ)) (labels : List String) :
    List (CorrelationCell × Bool) :=
  labels.enum.flatMap (fun ia =>
    labels.enum.filterMap (fun jb =>
      if jb.1 < ia.1 then none
      else
        let pv := correlationPairValue corrFn qual ia.1 jb.1 ia.2 jb.2
        some (⟨ia.2, jb.2, pv.1⟩, pv.2)))

/-- The grouped frequency table of the top-items query: each distinct key
with its row count over the qualifying rows. -/
def groupCounts (qual : List (String × ℚ)) : List (String × ℕ) :=
  ((qual.map (fun r => r.1)).dedup).map
    (fun k => (k, (qual.map (fun r => r.1)).count k))

/-- `ORDER BY cnt DESC LIMIT max_items` (tie order among equal counts is an
engine artifact; any descending arrangement is a faithful model). -/
def topItems (qual : List (String × ℚ)) (max_items : ℕ) :
    List (String × ℕ) :=
  ((groupCounts qual).insertionSort (fun p q => p.2 ≥ q.2)).take max_items

/-- The grouping-column determination of `correlation_matrix`:
`"regulator"` resolves against the dataset's metadata table (any failure,
including a raising `get_fields`, becomes one 400 error); `"sample"` is the
literal `sample_id` field, required to exist in the base table; anything
else is rejected. -/
def resolveGroupColumn (vdb : AnalysisVDB) (db_name : String)
    (fields : List String) (group_by : String) : Except Err String :=
  if group_by = "regulator" then
    match vdb.getFields (db_name ++ "_meta") with
    | none => throw (Err.cannotResolveRegulator db_name)
    | some meta_fields =>
      match resolveRegulatorIdentifier meta_fields (db_name ++ "_meta") with
      | .ok g => pure g
      | .error _ => throw (Err.cannotResolveRegulator db_name)
  else if group_by = "sample" then
    if fields.contains "sample_id" then pure "sample_id"
    else throw (Err.columnNotFound "sample_id" db_name)
  else
    throw (Err.invalidGroupBy group_by)

/-- `correlation_matrix(body, vdb, lock)`: validate identifiers, check the
dataset and value column, resolve the grouping column, select the top-K
keys by frequency, and emit the upper-triangle correlation cells (empty
labels and cells when the top-items query returns no keys). -/
def correlationMatrix (corrFn : List (ℚ × ℚ) → Option ℚ)
    (vdb : AnalysisVDB) (body : CorrelationRequest) :
    Except Err CorrelationMatrixResponse := do
  let db_name ← validateIdentifier body.db_name
  let value_column ← validateIdentifier body.value_column
  if ¬ vdb.tables.contains db_name then
    throw (Err.datasetNotFound db_name)
  else
    let fields ← match vdb.getFields db_name with
      | some f => pure f
      | none => throw (Err.engineError db_name)
    if ¬ fields.contains value_column then
      throw (Err.columnNotFound value_column db_name)
    else do
      let group_column ← resolveGroupColumn vdb db_name fields body.group_by
      let qual := qualRows vdb db_name group_column value_column
      let top := topItems qual body.max_items
      if top.isEmpty then
        pure ⟨db_name, [], [], body.method⟩
      else
        let labels := top.map (fun p => p.1)
        pure ⟨db_name, labels,
          (correlationCellsLog corrFn qual labels).map (fun p => p.1),
          body.method⟩

/-! ## Multi-dataset filter-value lookup (`filter_options` in `app/routers/analysis.py`) -/

/-- Modelled from the spec: `FilterOptionsRequest` (missing from
`app/schemas.py`): a dataset-name list and one column name. -/
structure FilterOptionsRequest where
  datasets : List String
  column : String

/-- Modelled from the spec: `FilterOptionsResponse` (missing from
`app/schemas.py`): the column and its deduplicated sorted values. -/
structure FilterOptionsResponse where
  column : String
  values : List String
deriving DecidableEq, Repr

/-- One iteration of the accumulation loop of `filter_options`: a dataset
absent from the live schema, or lacking the requested column, is silently
skipped; otherwise its distinct values join the set. -/
def filterValuesStep (vdb : AnalysisVDB) (column : String)
    (acc : Finset String) (ds : String) : Finset String :=
  if ¬ vdb.tables.contains ds then acc
  else if ¬ ((vdb.getFields ds).getD []).contains column then acc
  else if (vdb.distinctOf ds column).isEmpty then acc
  else acc ∪ (vdb.distinctOf ds column).toFinset

/-- The accumulated value set of `filter_options` over the requested
datasets, in order. -/
def filterValuesUnion (vdb : AnalysisVDB) (column : String)
    (names : List String) : Finset String :=
  names.foldl (filterValuesStep vdb column) ∅

/-- `filter_options(body, vdb, lock)` of `app/routers/analysis.py`
(endpoint `POST /analysis/filter-options`): validate identifiers, then
union the distinct values over the requested datasets, skipping absent
datasets and missing columns, and return the sorted list. -/
def filterOptionsMulti (vdb : AnalysisVDB) (body : FilterOptionsRequest) :
    Except Err FilterOptionsResponse := do
  let dataset_names ← body.datasets.mapM validateIdentifier
  let column ← validateIdentifier body.column
  if dataset_names.isEmpty then
    pure ⟨column, []⟩
  else
    pure ⟨column, (filterValuesUnion vdb column dataset_names).sort (· ≤ ·)⟩

/-! ## Spec-level definitions and concrete instances used by the theorems -/

/-- A concrete renderer for numeric literals, standing in for Python's
float formatting in closed instances. -/
def showQ (q : ℚ) : String :=
  toString q

/-- A numeric filter with both bounds present and `min > max`. -/
def badRange (nf : NumericRangeFilter) : Bool :=
  match nf.min_value, nf.max_value with
  | some a, some b => a > b
  | _, _ => false

/-- The spec's categorical clause: drop empty-string values, escape the
rest by doubling single quotes, and emit `field IN (v1, v2, ...)` exactly
when at least one value remains. -/
def specCategoricalClause (field : String) (values : List String) :
    Option String :=
  let kept := (values.filter (fun v => v ≠ "")).map escapeSqlValue
  if kept.isEmpty then none
  else some (field ++ " IN ("
    ++ ", ".intercalate (kept.map (fun v => "'" ++ v ++ "'")) ++ ")")

/-- The spec's numeric clauses: `field >= min` and/or `field <= max` for
whichever bound is present, nothing for an absent bound. -/
def specNumericClauses (showNum : ℚ → String) (field : String)
    (nf : NumericRangeFilter) : List String :=
  (match nf.min_value with
    | some a => [field ++ " >= " ++ showNum a]
    | none => []) ++
  (match nf.max_value with
    | some b => [field ++ " <= " ++ showNum b]
    | none => [])

/-- The spec's description of the whole clause: all emitted clauses joined
with `AND`, the empty clause when none were produced, else prefixed for
direct SQL splicing. -/
def specWhereSql (showNum : ℚ → String) (body : IntersectionRequest)
    (ds : String) : String :=
  let clauses :=
    (alistGetD body.filters ds []).filterMap
      (fun p => specCategoricalClause p.1 p.2)
    ++ (alistGetD body.numeric_filters ds []).flatMap
      (fun p => specNumericClauses showNum p.1 p.2)
  if clauses.isEmpty then "" else " WHERE " ++ " AND ".intercalate clauses

/-- The upper-triangle index pairs `(i, j)` with `i ≤ j < n`, row-major. -/
def upperPairs (n : ℕ) : List (ℕ × ℕ) :=
  (List.range n).flatMap (fun i =>
    ((List.range n).filter (fun j => i ≤ j)).map (fun j => (i, j)))

/-- A table with one non-numeric column holding 101 distinct values. -/
def c4Table : MetaTable :=
  { fields := ["condition"]
    typeMap := fun _ => none
    minStat := fun _ => RawStat.null
    maxStat := fun _ => RawStat.null
    distinct := fun _ => (List.range 101).map (fun n => toString n) }

/-- A request with an invalid categorical field identifier *and* an invalid
numeric range on the same dataset. -/
def c6Body : IntersectionRequest :=
  { datasets := ["ds"]
    filters := [("ds", [("bad name", ["x"])])]
    numeric_filters := [("ds", [("f", { min_value := some 5, max_value := some 1 })])] }

/-- A request whose only flaw is a numeric filter with `min > max`. -/
def c6wBody : IntersectionRequest :=
  { datasets := ["d"]
    filters := []
    numeric_filters := [("d", [("effect", { min_value := some 5, max_value := some 1 })])] }

/-- A well-formed request with one categorical filter (including an empty
string to drop) and one two-sided numeric filter. -/
def c7Body : IntersectionRequest :=
  { datasets := ["harbison"]
    filters := [("harbison", [("carbon_source", ["glucose", "galactose", ""])])]
    numeric_filters :=
      [("harbison", [("effect", { min_value := some 1, max_value := some 2 })])] }

/-- A live schema with two registered datasets whose metadata tables carry
a `regulator` column. -/
def c1Vdb : VDB :=
  { getFields := fun t =>
      if t = "harbison_meta" then some ["regulator", "sample_id"]
      else if t = "kemmeren_meta" then some ["regulator", "sample_id"]
      else none
    queryRegs := fun _ => [some "TF1", some "TF2", none] }

/-- An unfiltered two-dataset intersection request. -/
def c1Body : IntersectionRequest :=
  { datasets := ["harbison", "kemmeren"], filters := [], numeric_filters := [] }

/-- The three cells the run above produces. -/
def c1Cells : List IntersectionCell :=
  [⟨"harbison", "harbison", 2⟩, ⟨"harbison", "kemmeren", 2⟩,
   ⟨"kemmeren", "kemmeren", 2⟩]

/-- A schema where `rossi_combined`'s base metadata table has no regulator
column but its supplemental table `rossi_combined_regmeta` does. -/
def c2Vdb : VDB :=
  { getFields := fun t =>
      if t = "rossi_combined_meta" then some ["sample_id"]
      else if t = "rossi_combined_regmeta" then some ["sample_id", "regulator"]
      else none
    queryRegs := fun _ => [some "TF1"] }

/-- An intersection request for `rossi_combined` with no filters at all. -/
def c2Body : IntersectionRequest :=
  { datasets := ["rossi_combined"], filters := [], numeric_filters := [] }

/-- The SQL the walk issues in that scenario: a join against the base
metadata table although no filter clause is active. -/
def c2JoinSql : String :=
  "SELECT DISTINCT src.regulator AS regulator FROM rossi_combined_regmeta AS src JOIN (SELECT DISTINCT sample_id AS __sample_id FROM rossi_combined_meta) AS f ON CAST(src.sample_id AS VARCHAR) = CAST(f.__sample_id AS VARCHAR)"

/-- A live schema in which no table of `calling_cards` is registered. -/
def c3Vdb : VDB :=
  { getFields := fun _ => none
    queryRegs := fun _ => [] }

/-- A live schema in which `calling_cards_meta` is registered but carries
no regulator-candidate column. -/
def c3Vdb2 : VDB :=
  { getFields := fun t =>
      if t = "calling_cards_meta" then some ["sample_id", "target_locus_tag"]
      else none
    queryRegs := fun _ => [] }

/-- An intersection request for `calling_cards`. -/
def c3Body : IntersectionRequest :=
  { datasets := ["calling_cards"], filters := [], numeric_filters := [] }

/-- An analysis engine with one dataset of four sample-grouped rows. -/
def c8Vdb : AnalysisVDB :=
  { tables := ["harbison"]
    getFields := fun t =>
      if t = "harbison" then some ["sample_id", "effect"] else none
    rows := fun _ _ _ =>
      [(some "s1", some 1), (some "s1", some 2),
       (some "s2", some 3), (some "s2", some 4)]
    distinctOf := fun _ _ => [] }

/-- A sample-grouped correlation request over that dataset. -/
def c8Body : CorrelationRequest :=
  { db_name := "harbison", method := "pearson", value_column := "effect"
    group_by := "sample", max_items := 2 }

/-- The response the run above produces (the engine's aggregate returns
`none`, so the cross cell is `0`). -/
def c8Resp : CorrelationMatrixResponse :=
  { db_name := "harbison", labels := ["s1", "s2"]
    cells := [⟨"s1", "s1", 1⟩, ⟨"s1", "s2", 0⟩, ⟨"s2", "s2", 1⟩]
    method := "pearson" }

/-- An analysis engine whose rows never pair a non-null key with a
non-null value. -/
def c10Vdb : AnalysisVDB :=
  { tables := ["harbison"]
    getFields := fun t =>
      if t = "harbison" then some ["sample_id", "effect"] else none
    rows := fun _ _ _ => [(some "s1", none), (none, some 5)]
    distinctOf := fun _ _ => [] }

/-- A correlation request over that dataset. -/
def c10Body : CorrelationRequest :=
  { db_name := "harbison", method := "pearson", value_column := "effect"
    group_by := "sample", max_items := 10 }

/-- An analysis engine with one registered dataset carrying
`regulator_symbol`. -/
def c9aVdb : AnalysisVDB :=
  { tables := ["harbison"]
    getFields := fun t =>
      if t = "harbison" then some ["regulator_symbol"] else none
    rows := fun _ _ _ => []
    distinctOf := fun _ _ => ["ACE2"] }

/-- A filter-value request naming one present and one absent dataset. -/
def c9aBody : FilterOptionsRequest :=
  { datasets := ["harbison", "nonexistent"], column := "regulator_symbol" }

/-- An intersection engine with no registered tables at all. -/
def c9iVdb : VDB :=
  { getFields := fun _ => none
    queryRegs := fun _ => [] }

/-- An intersection request over one unresolvable dataset. -/
def c9iBody : IntersectionRequest :=
  { datasets := ["mystery"], filters := [], numeric_filters := [] }

/-! # Theorems -/

/-! ## Properties of identifier validation (claim C5) -/

/-- Characterization of the Python tail matcher: it accepts exactly the
all-identifier-character lists, plus those followed by one trailing newline. -/
theorem pyIdentTail_iff (cs : List Char) :
    pyIdentTail cs = true ↔
      (specIdentTail cs = true ∨
        ∃ t, cs = t ++ ['\n'] ∧ specIdentTail t = true) := by
  induction cs with
  | nil =>
    simp [pyIdentTail, specIdentTail]
  | cons c cs ih =>
    simp only [pyIdentTail, specIdentTail, Bool.or_eq_true, Bool.and_eq_true,
      beq_iff_eq, List.isEmpty_iff, ih]
    constructor
    · rintro (⟨hc, h | ⟨t, rfl, ht⟩⟩ | ⟨rfl, rfl⟩)
      · exact Or.inl ⟨hc, h⟩
      · exact Or.inr ⟨c :: t, rfl, by
          simp only [specIdentTail, Bool.and_eq_true]; exact ⟨hc, ht⟩⟩
      · exact Or.inr ⟨[], rfl, rfl⟩
    · rintro (⟨hc, h⟩ | ⟨t, ht, ht2⟩)
      · exact Or.inl ⟨hc, Or.inl h⟩
      · cases t with
        | nil =>
          simp only [List.nil_append, List.cons.injEq] at ht
          obtain ⟨rfl, rfl⟩ := ht
          exact Or.inr ⟨rfl, rfl⟩
        | cons d t' =>
          simp only [List.cons_append, List.cons.injEq] at ht
          obtain ⟨rfl, rfl⟩ := ht
          simp only [specIdentTail, Bool.and_eq_true] at ht2
          exact Or.inl ⟨ht2.1, Or.inr ⟨t', rfl, ht2.2⟩⟩

/-- Characterization of the full Python match: the spec's exact language,
plus every word of it with one trailing newline appended. -/
theorem pyIdentMatch_iff (s : String) :
    pyIdentMatch s = true ↔
      (specIdentMatch s = true ∨
        ∃ t : String, s = t.push '\n' ∧ specIdentMatch t = true) := by
  obtain ⟨l⟩ := s
  cases l with
  | nil =>
    simp only [pyIdentMatch, specIdentMatch]
    constructor
    · intro h; exact absurd h (by simp)
    · rintro (h | ⟨⟨td⟩, ht, _⟩)
      · exact absurd h (by simp)
      · have hd : ([] : List Char) = td ++ ['\n'] := congrArg String.data ht
        exact absurd hd (by simp)
  | cons c cs =>
    simp only [pyIdentMatch, specIdentMatch, Bool.and_eq_true, pyIdentTail_iff]
    constructor
    · rintro ⟨hc, h | ⟨t, rfl, ht⟩⟩
      · exact Or.inl ⟨hc, h⟩
      · refine Or.inr ⟨⟨c :: t⟩, ?_, ?_⟩
        · show String.mk (c :: t ++ ['\n']) = String.mk ((c :: t) ++ ['\n'])
          rfl
        · simp only [specIdentMatch, Bool.and_eq_true]; exact ⟨hc, ht⟩
    · rintro (⟨hc, h⟩ | ⟨⟨td⟩, ht, ht2⟩)
      · exact ⟨hc, Or.inl h⟩
      · have hd : c :: cs = td ++ ['\n'] := congrArg String.data ht
        cases td with
        | nil => simp_all [specIdentMatch]
        | cons d td' =>
          simp only [List.cons_append, List.cons.injEq] at hd
          obtain ⟨rfl, rfl⟩ := hd
          simp only [specIdentMatch, Bool.and_eq_true] at ht2
          exact ⟨ht2.1, Or.inr ⟨td', rfl, ht2.2⟩⟩

/-- C5, counterexample: the code accepts `"a\n"` (Python's `$` matches
before a trailing newline), but `"a\n"` is outside the advertised language
`^[A-Za-z_][A-Za-z0-9_]*$` — so `validateIdentifier` does *not* reject
every string containing a character outside the pattern. -/
theorem identifier_validation_counterexample :
    validateIdentifier "a\n" = .ok "a\n" ∧ specIdentMatch "a\n" = false :=
  ⟨rfl, rfl⟩

/-- C5, amended: `validateIdentifier` returns its input unchanged exactly
for the strings of the pattern language, or such a string with one trailing
newline appended; every other string fails with `InvalidIdentifier`. -/
theorem identifier_validation_amended (s : String) :
    (validateIdentifier s = .ok s ↔
      (specIdentMatch s = true ∨
        ∃ t : String, s = t.push '\n' ∧ specIdentMatch t = true))
    ∧ (validateIdentifier s = .ok s ∨
        validateIdentifier s = .error (.invalidIdentifier s)) := by
  constructor
  · rw [← pyIdentMatch_iff]
    unfold validateIdentifier
    constructor
    · intro h
      by_contra hc
      rw [Bool.not_eq_true] at hc
      rw [hc] at h
      exact absurd h (by simp)
    · intro h; rw [h]; simp
  · unfold validateIdentifier
    split
    · exact Or.inl rfl
    · exact Or.inr rfl

/-! ## Properties of filter-option derivation (claim C4) -/

/-- C4, counterexample: the `filter_options` endpoint of
`app/routers/query.py` enumerates a non-numeric field with 101 distinct
values in full — the derived filter-options result *can* contain a
categorical option with more than 100 values. -/
theorem filter_options_cardinality_cap_counterexample :
    filterOptionsTable c4Table =
      [FilterOption.categorical "condition"
        ((List.range 101).map (fun n => toString n))] ∧
    100 < ((List.range 101).map (fun n => toString n)).length :=
  ⟨rfl, by simp⟩

/-- C4, amended: the `source_summary` metadata-field derivation in
`app/routers/analysis.py` never contains a categorical option with more
than 100 values — every emitted categorical option is the full distinct
enumeration (never truncated) with count in `(0, 100]`, so a non-numeric
field whose distinct non-null count is 0 or exceeds 100 is omitted
entirely; both derivations omit a numeric field whose normalized MIN and
MAX are both absent; but the `filter_options` endpoint of
`app/routers/query.py` enumerates every non-empty non-numeric field in
full, with no cap. -/
theorem filter_options_cardinality_cap_amended (t : MetaTable) :
    (∀ f vs, FilterOption.categorical f vs ∈ sourceSummaryMetadataFields t →
      vs = t.distinct f ∧ 0 < vs.length ∧ vs.length ≤ 100)
    ∧ (∀ f, ((t.distinct f).length = 0 ∨ 100 < (t.distinct f).length) →
      ∀ vs, FilterOption.categorical f vs ∉ sourceSummaryMetadataFields t)
    ∧ (∀ f mn mx, FilterOption.numeric f mn mx ∈ sourceSummaryMetadataFields t →
      ¬(mn = none ∧ mx = none))
    ∧ (∀ f mn mx, FilterOption.numeric f mn mx ∈ filterOptionsTable t →
      ¬(mn = none ∧ mx = none))
    ∧ (∀ f vs, FilterOption.categorical f vs ∈ filterOptionsTable t →
      vs = t.distinct f ∧ 0 < vs.length) := by
  have hcap : ∀ f vs,
      FilterOption.categorical f vs ∈ sourceSummaryMetadataFields t →
      vs = t.distinct f ∧ 0 < vs.length ∧ vs.length ≤ 100 := by
    intro f vs h
    rw [sourceSummaryMetadataFields, List.mem_filterMap] at h
    obtain ⟨x, _, hfx⟩ := h
    split_ifs at hfx with h1 h2 h3 h4
    all_goals simp at hfx
    obtain ⟨rfl, rfl⟩ := hfx
    simp only [Bool.and_eq_true, decide_eq_true_eq] at h4
    exact ⟨rfl, h4.1, h4.2⟩
  refine ⟨hcap, ?_, ?_, ?_, ?_⟩
  · intro f hlen vs hmem
    obtain ⟨hvs, hpos, hle⟩ := hcap f vs hmem
    rcases hlen with h0 | h100
    · rw [hvs, h0] at hpos
      exact absurd hpos (by simp)
    · rw [hvs] at hle
      omega
  · intro f mn mx h
    rw [sourceSummaryMetadataFields, List.mem_filterMap] at h
    obtain ⟨x, _, hfx⟩ := h
    split_ifs at hfx with h1 h2 h3 h4
    all_goals simp at hfx
    obtain ⟨rfl, h5, h6⟩ := hfx
    rw [← h5, ← h6]
    simp only [Bool.and_eq_true, decide_eq_true_eq, not_and] at h3
    rintro ⟨ha, hb⟩
    exact (h3 ha) hb
  · intro f mn mx h
    rw [filterOptionsTable, List.mem_filterMap] at h
    obtain ⟨x, _, hfx⟩ := h
    split_ifs at hfx with h1 h2 h3 h4
    all_goals simp at hfx
    obtain ⟨rfl, h5, h6⟩ := hfx
    rw [← h5, ← h6]
    simp only [Bool.and_eq_true, decide_eq_true_eq, not_and] at h3
    rintro ⟨ha, hb⟩
    exact (h3 ha) hb
  · intro f vs h
    rw [filterOptionsTable, List.mem_filterMap] at h
    obtain ⟨x, _, hfx⟩ := h
    split_ifs at hfx with h1 h2 h3 h4
    all_goals simp at hfx
    obtain ⟨rfl, rfl⟩ := hfx
    refine ⟨rfl, ?_⟩
    rw [List.isEmpty_iff] at h4
    exact List.length_pos.mpr h4

/-! ## Properties of the where-clause builder (claims C6, C7) -/

/-- `Except` bind on a success. -/
theorem ok_bind {α β : Type} (a : α) (f : α → Except Err β) :
    ((Except.ok a : Except Err α) >>= f) = f a := rfl

/-- `Except` bind on a failure. -/
theorem error_bind {α β : Type} (e : Err) (f : α → Except Err β) :
    ((Except.error e : Except Err α) >>= f) = .error e := rfl

/-- `pure` on `Except` is `ok`. -/
theorem pure_eq_ok {α : Type} (a : α) : (pure a : Except Err α) = .ok a := rfl

/-- `Except` bind on a `pure`. -/
theorem pureb_bind {α β : Type} (a : α) (f : α → Except Err β) :
    ((pure a : Except Err α) >>= f) = f a := rfl

/-- `Except` bind on a `throw`. -/
theorem throw_bind {α β : Type} (e : Err) (f : α → Except Err β) :
    ((throw e : Except Err α) >>= f) = .error e := rfl

/-- `foldlM` over `Except`, cons case. -/
theorem foldlM_cons_except {α σ : Type} (f : σ → α → Except Err σ) (a : α)
    (l : List α) (init : σ) :
    List.foldlM f init (a :: l) = f init a >>= fun s => List.foldlM f s l := rfl

/-- A categorical step with a valid field identifier appends exactly the
spec's categorical clause. -/
theorem categoricalStep_eq (acc : List String) (p : String × List String)
    (hp : pyIdentMatch p.1 = true) :
    categoricalStep acc p = .ok (acc ++ (specCategoricalClause p.1 p.2).toList) := by
  have hv : validateIdentifier p.1 = .ok p.1 := by
    rw [validateIdentifier, if_pos hp]
  show (validateIdentifier p.1 >>= fun field => _) = _
  rw [hv, ok_bind]
  by_cases he : ((p.2.filter (fun v => v ≠ "")).map escapeSqlValue).isEmpty
  · rw [if_pos he]
    rw [specCategoricalClause]
    simp only [he, if_true, Option.toList_none, List.append_nil]
    rfl
  · rw [if_neg he]
    rw [specCategoricalClause]
    simp only [he, if_false, Option.toList_some]
    rfl

/-- A numeric step with a valid field identifier and no invalid range
appends exactly the spec's numeric clauses. -/
theorem numericStep_ok (showNum : ℚ → String) (ds : String)
    (acc : List String) (p : String × NumericRangeFilter)
    (hp : pyIdentMatch p.1 = true) (hg : badRange p.2 = false) :
    numericStep showNum ds acc p =
      .ok (acc ++ specNumericClauses showNum p.1 p.2) := by
  have hv : validateIdentifier p.1 = .ok p.1 := by
    rw [validateIdentifier, if_pos hp]
  show (validateIdentifier p.1 >>= fun field => _) = _
  rw [hv, ok_bind]
  rcases hmn : p.2.min_value with _ | a <;> rcases hmx : p.2.max_value with _ | b <;>
    simp only [specNumericClauses, hmn, hmx, List.nil_append, List.append_nil]
  · rfl
  · rfl
  · rfl
  · simp only [badRange, hmn, hmx, decide_eq_false_iff_not] at hg
    show (if a > b then _ else _) = _
    rw [if_neg hg]
    simp only [List.append_assoc]
    rfl

/-- A numeric step with a valid field identifier and an invalid range fails
with `InvalidRange` at that field. -/
theorem numericStep_err (showNum : ℚ → String) (ds : String)
    (acc : List String) (p : String × NumericRangeFilter)
    (hp : pyIdentMatch p.1 = true) (hg : badRange p.2 = true) :
    numericStep showNum ds acc p = .error (.invalidRange ds p.1) := by
  have hv : validateIdentifier p.1 = .ok p.1 := by
    rw [validateIdentifier, if_pos hp]
  show (validateIdentifier p.1 >>= fun field => _) = _
  rw [hv, ok_bind]
  rcases hmn : p.2.min_value with _ | a <;> rcases hmx : p.2.max_value with _ | b <;>
    simp only [badRange, hmn, hmx, decide_eq_true_eq] at hg
  · exact absurd hg Bool.false_ne_true
  · exact absurd hg Bool.false_ne_true
  · exact absurd hg Bool.false_ne_true
  · simp only [hmn, hmx]
    show (if a > b then _ else _) = _
    rw [if_pos hg]
    rfl

/-- With valid field identifiers, the categorical loop succeeds and appends
exactly the spec's categorical clauses. -/
theorem categoricalClauses_ok (filters : List (String × List String))
    (h : ∀ p ∈ filters, pyIdentMatch p.1 = true) (init : List String) :
    categoricalClauses filters init =
      .ok (init ++ filters.filterMap (fun p => specCategoricalClause p.1 p.2)) := by
  induction filters generalizing init with
  | nil => simp only [categoricalClauses, List.foldlM_nil, List.filterMap_nil,
      List.append_nil]; rfl
  | cons p ps ih =>
    have hp : pyIdentMatch p.1 = true := h p (by simp)
    have hps : ∀ q ∈ ps, pyIdentMatch q.1 = true := fun q hq => h q (by simp [hq])
    rw [categoricalClauses, foldlM_cons_except, categoricalStep_eq init p hp, ok_bind]
    show categoricalClauses ps _ = _
    rw [ih hps]
    rcases hc : specCategoricalClause p.1 p.2 with _ | c <;>
      simp [List.filterMap_cons, hc, List.append_assoc]

/-- With valid field identifiers and no invalid range, the numeric loop
succeeds and appends exactly the spec's numeric clauses. -/
theorem numericClauses_ok (showNum : ℚ → String) (ds : String)
    (nfs : List (String × NumericRangeFilter))
    (h : ∀ p ∈ nfs, pyIdentMatch p.1 = true)
    (hg : ∀ p ∈ nfs, badRange p.2 = false) (init : List String) :
    numericClauses showNum ds nfs init =
      .ok (init ++ nfs.flatMap (fun p => specNumericClauses showNum p.1 p.2)) := by
  induction nfs generalizing init with
  | nil => simp only [numericClauses, List.foldlM_nil, List.flatMap_nil,
      List.append_nil]; rfl
  | cons p ps ih =>
    have hp : pyIdentMatch p.1 = true := h p (by simp)
    have hps : ∀ q ∈ ps, pyIdentMatch q.1 = true := fun q hq => h q (by simp [hq])
    have hgps : ∀ q ∈ ps, badRange q.2 = false := fun q hq => hg q (by simp [hq])
    rw [numericClauses, foldlM_cons_except,
      numericStep_ok showNum ds init p hp (hg p (by simp)), ok_bind]
    show numericClauses showNum ds ps _ = _
    rw [ih hps hgps]
    simp [List.append_assoc]

/-- With valid field identifiers, a present invalid range makes the numeric
loop fail with `InvalidRange` at a field carrying one. -/
theorem numericClauses_err (showNum : ℚ → String) (ds : String)
    (nfs : List (String × NumericRangeFilter))
    (h : ∀ p ∈ nfs, pyIdentMatch p.1 = true)
    (hb : ∃ p ∈ nfs, badRange p.2 = true) : ∀ init : List String,
    ∃ f nf, (f, nf) ∈ nfs ∧ badRange nf = true ∧
      numericClauses showNum ds nfs init = .error (.invalidRange ds f) := by
  induction nfs with
  | nil => simp at hb
  | cons p ps ih =>
    intro init
    have hp : pyIdentMatch p.1 = true := h p (by simp)
    have hps : ∀ q ∈ ps, pyIdentMatch q.1 = true := fun q hq => h q (by simp [hq])
    by_cases hgp : badRange p.2 = true
    · refine ⟨p.1, p.2, by simp, hgp, ?_⟩
      rw [numericClauses, foldlM_cons_except,
        numericStep_err showNum ds init p hp hgp, error_bind]
    · rw [Bool.not_eq_true] at hgp
      have hbps : ∃ q ∈ ps, badRange q.2 = true := by
        rcases hb with ⟨q, hq, hqb⟩
        rcases List.mem_cons.mp hq with rfl | hq'
        · rw [hgp] at hqb; exact absurd hqb (by simp)
        · exact ⟨q, hq', hqb⟩
      obtain ⟨f, nf, hmem, hnf, heq⟩ :=
        ih hps hbps (init ++ specNumericClauses showNum p.1 p.2)
      refine ⟨f, nf, by simp [hmem], hnf, ?_⟩
      rw [numericClauses, foldlM_cons_except,
        numericStep_ok showNum ds init p hp hgp, ok_bind]
      exact heq

/-- C6, counterexample: a request carrying both an invalid categorical
field identifier and a numeric filter with `min > max` fails with
`InvalidIdentifier`, not `InvalidRange` — so "fails with `InvalidRange` iff
some numeric filter has min > max" is false as stated. -/
theorem build_where_invalid_range_counterexample :
    buildWhereSql showQ c6Body "ds" = .error (.invalidIdentifier "bad name") ∧
    ("f", ({ min_value := some 5, max_value := some 1 } : NumericRangeFilter)) ∈
      alistGetD c6Body.numeric_filters "ds" [] ∧
    badRange { min_value := some 5, max_value := some 1 } = true := by
  exact ⟨rfl, by decide, by decide⟩

/-- C6, amended: provided every filter field identifier for the dataset is
valid, `buildWhere` fails iff some numeric filter has both bounds present
with min > max, every such failure is an `InvalidRange` for a field
carrying an invalid range, and on success each present bound contributes
its `>=`/`<=` clause. -/
theorem build_where_invalid_range_amended
    (showNum : ℚ → String) (body : IntersectionRequest) (ds : String)
    (hcat : ∀ p ∈ alistGetD body.filters ds [], pyIdentMatch p.1 = true)
    (hnum : ∀ p ∈ alistGetD body.numeric_filters ds [], pyIdentMatch p.1 = true) :
    ((∃ e, buildWhereSql showNum body ds = .error e) ↔
      ∃ p ∈ alistGetD body.numeric_filters ds [], badRange p.2 = true)
    ∧ (∀ e, buildWhereSql showNum body ds = .error e →
        ∃ f nf, (f, nf) ∈ alistGetD body.numeric_filters ds [] ∧
          badRange nf = true ∧ e = Err.invalidRange ds f)
    ∧ (∀ cs, whereClauses showNum body ds = .ok cs →
        ∀ p ∈ alistGetD body.numeric_filters ds [],
          (∀ a, p.2.min_value = some a → (p.1 ++ " >= " ++ showNum a) ∈ cs) ∧
          (∀ b, p.2.max_value = some b → (p.1 ++ " <= " ++ showNum b) ∈ cs)) := by
  have hcatok := categoricalClauses_ok (alistGetD body.filters ds []) hcat []
  have hwc : whereClauses showNum body ds =
      numericClauses showNum ds (alistGetD body.numeric_filters ds [])
        ([] ++ (alistGetD body.filters ds []).filterMap
          (fun p => specCategoricalClause p.1 p.2)) := by
    rw [whereClauses, hcatok, ok_bind]
  by_cases hbad : ∃ p ∈ alistGetD body.numeric_filters ds [], badRange p.2 = true
  · obtain ⟨f, nf, hmem, hnf, heq⟩ :=
      numericClauses_err showNum ds (alistGetD body.numeric_filters ds []) hnum hbad
        ([] ++ (alistGetD body.filters ds []).filterMap
          (fun p => specCategoricalClause p.1 p.2))
    have hbw : buildWhereSql showNum body ds = .error (.invalidRange ds f) := by
      rw [buildWhereSql, hwc, heq, error_bind]
    refine ⟨⟨fun _ => hbad, fun _ => ⟨_, hbw⟩⟩, ?_, ?_⟩
    · intro e he
      rw [hbw] at he
      injection he with h1
      exact ⟨f, nf, hmem, hnf, h1.symm⟩
    · intro cs hcs
      rw [hwc, heq] at hcs
      exact absurd hcs (by simp)
  · have hgood : ∀ p ∈ alistGetD body.numeric_filters ds [], badRange p.2 = false := by
      intro p hp
      cases hb : badRange p.2
      · rfl
      · exact absurd ⟨p, hp, hb⟩ hbad
    have hnumok := numericClauses_ok showNum ds
      (alistGetD body.numeric_filters ds []) hnum hgood
      ([] ++ (alistGetD body.filters ds []).filterMap
        (fun p => specCategoricalClause p.1 p.2))
    have hok := hwc.trans hnumok
    refine ⟨⟨?_, fun h => absurd h hbad⟩, ?_, ?_⟩
    · rintro ⟨e, he⟩
      rw [buildWhereSql, hok, ok_bind] at he
      split at he <;> simp [pure_eq_ok] at he
    · intro e he
      rw [buildWhereSql, hok, ok_bind] at he
      split at he <;> simp [pure_eq_ok] at he
    · intro cs hcs p hp
      rw [hok] at hcs
      injection hcs with h1
      subst h1
      constructor
      · intro a ha
        refine List.mem_append_right _ (List.mem_flatMap.mpr ⟨p, hp, ?_⟩)
        simp [specNumericClauses, ha]
      · intro b hb
        refine List.mem_append_right _ (List.mem_flatMap.mpr ⟨p, hp, ?_⟩)
        simp [specNumericClauses, hb]

/-- C6, witness for the amended theorem at a concrete bad-range request. -/
theorem build_where_invalid_range_amended_witness :
    ∃ e, buildWhereSql showQ c6wBody "d" = .error e :=
  (build_where_invalid_range_amended showQ c6wBody "d" (by decide) (by decide)).1.mpr
    ⟨("effect", { min_value := some 5, max_value := some 1 }), by decide, by decide⟩

/-- C7: on any request whose field identifiers are valid and whose numeric
ranges are well-formed, `buildWhere` returns exactly the spec's clause:
empty-string values dropped, remaining values quote-doubled, `IN` clauses
emitted exactly when a value remains, clauses joined with `AND`, and the
result empty or prefixed with `" WHERE "`. -/
theorem build_where_clause_construction
    (showNum : ℚ → String) (body : IntersectionRequest) (ds : String)
    (hcat : ∀ p ∈ alistGetD body.filters ds [], pyIdentMatch p.1 = true)
    (hnum : ∀ p ∈ alistGetD body.numeric_filters ds [], pyIdentMatch p.1 = true)
    (hgood : ∀ p ∈ alistGetD body.numeric_filters ds [], badRange p.2 = false) :
    buildWhereSql showNum body ds = .ok (specWhereSql showNum body ds) := by
  have h1 := categoricalClauses_ok (alistGetD body.filters ds []) hcat []
  have h2 := numericClauses_ok showNum ds
    (alistGetD body.numeric_filters ds []) hnum hgood
    ([] ++ (alistGetD body.filters ds []).filterMap
      (fun p => specCategoricalClause p.1 p.2))
  rw [buildWhereSql, whereClauses, h1, ok_bind, h2, ok_bind, specWhereSql]
  simp only [List.nil_append]
  by_cases hemp : ((alistGetD body.filters ds []).filterMap
      (fun p => specCategoricalClause p.1 p.2) ++
      (alistGetD body.numeric_filters ds []).flatMap
        (fun p => specNumericClauses showNum p.1 p.2)).isEmpty
  · rw [if_pos hemp, if_pos hemp]
    rfl
  · rw [if_neg hemp, if_neg hemp]
    rfl

/-- C7, witness at a concrete request carrying both filter kinds. -/
theorem build_where_clause_construction_witness :
    buildWhereSql showQ c7Body "harbison" = .ok (specWhereSql showQ c7Body "harbison") :=
  build_where_clause_construction showQ c7Body "harbison"
    (by decide) (by decide) (by decide)

/-! ## Upper-triangle machinery (claim C1) -/

/-- Count of indices `j < n` with `i ≤ j`. -/
theorem length_filter_le (i n : ℕ) :
    ((List.range n).filter (fun j => i ≤ j)).length = n - i := by
  induction n with
  | zero => simp
  | succ n ih =>
    rw [List.range_succ, List.filter_append, List.length_append, ih]
    by_cases h : i ≤ n <;> simp [List.filter_cons, h] <;> omega

/-- The upper triangle over `n` indices has `n(n+1)/2` entries. -/
theorem upperPairs_length (n : ℕ) :
    (upperPairs n).length = n * (n + 1) / 2 := by
  rw [upperPairs, List.length_flatMap]
  have h1 : List.map
      (List.length ∘ fun i =>
        ((List.range n).filter (fun j => i ≤ j)).map (fun j => (i, j)))
      (List.range n) = (List.range n).map (fun i => n - i) := by
    apply List.map_congr_left
    intro i _
    simp only [Function.comp_apply, List.length_map]
    exact length_filter_le i n
  rw [h1]
  have hb : ((List.range n).map (fun i => n - i)).sum
      = ∑ i in Finset.range n, (n - i) := rfl
  rw [hb]
  have h2 : ∑ i in Finset.range n, (n - i) = ∑ i in Finset.range n, (i + 1) := by
    rw [← Finset.sum_range_reflect (fun j => j + 1) n]
    apply Finset.sum_congr rfl
    intro i hi
    rw [Finset.mem_range] at hi
    omega
  rw [h2]
  have h3 : ∑ i in Finset.range n, (i + 1) = ∑ i in Finset.range (n + 1), i := by
    rw [Finset.sum_range_succ' (fun i => i) n]
    simp
  rw [h3, Finset.sum_range_id]
  simp [Nat.mul_comm]

/-- Membership in the upper-triangle pair list. -/
theorem upperPairs_mem (n : ℕ) (p : ℕ × ℕ) :
    p ∈ upperPairs n ↔ p.1 ≤ p.2 ∧ p.2 < n := by
  rcases p with ⟨i, j⟩
  simp only [upperPairs, List.mem_flatMap, List.mem_map, List.mem_filter,
    List.mem_range, decide_eq_true_eq, Prod.mk.injEq]
  constructor
  · rintro ⟨i', _, j', ⟨hj', hij⟩, rfl, rfl⟩
    exact ⟨hij, hj'⟩
  · rintro ⟨hij, hj⟩
    exact ⟨i, lt_of_le_of_lt hij hj, j, ⟨hj, hij⟩, rfl, rfl⟩

/-- `flatMap` of per-index pair lists is duplicate-free when each block is
and blocks are keyed by their first component. -/
theorem nodup_flatMap_fst_keyed (f : ℕ → List (ℕ × ℕ))
    (hf : ∀ i, (f i).Nodup) (hfst : ∀ i p, p ∈ f i → p.1 = i) :
    ∀ l : List ℕ, l.Nodup → (l.flatMap f).Nodup := by
  intro l
  induction l with
  | nil => simp
  | cons a as ih =>
    intro hnd
    rw [List.flatMap_cons, List.nodup_append]
    refine ⟨hf a, ih (List.nodup_cons.mp hnd).2, ?_⟩
    intro p hp1 hp2
    obtain ⟨b, hb, hpb⟩ := List.mem_flatMap.mp hp2
    have h1 : p.1 = a := hfst a p hp1
    have h2 : p.1 = b := hfst b p hpb
    exact (List.nodup_cons.mp hnd).1 (by rw [← h1, h2]; exact hb)

/-- The upper-triangle pair list has no duplicates. -/
theorem upperPairs_nodup (n : ℕ) : (upperPairs n).Nodup := by
  rw [upperPairs]
  apply nodup_flatMap_fst_keyed
  · intro i
    exact ((List.nodup_range n).filter _).map (fun a b h => by injection h)
  · intro i p hp
    obtain ⟨j, _, rfl⟩ := List.mem_map.mp hp
    rfl
  · exact List.nodup_range n

/-- `enum` as a map over the index range (with a default-valued lookup). -/
theorem enum_eq_map_range (l : List String) :
    l.enum = (List.range l.length).map (fun i => (i, l.getD i "")) := by
  apply List.ext_getElem
  · simp
  · intro i h1 h2
    have hi : i < l.length := by simpa using h1
    simp only [List.getElem_enum, List.getElem_map, List.getElem_range]
    rw [List.getD_eq_getElem l "" hi]

/-- Reduction of the inner skip-or-emit loop to a filter-then-map. -/
theorem filterMap_shift {β : Type} (i : ℕ) (X Y : ℕ → β) :
    ∀ l : List ℕ,
    l.filterMap (fun j => if j < i then none
      else if i = j then some (X j) else some (Y j)) =
      (l.filter (fun j => i ≤ j)).map (fun j => if i = j then X j else Y j) := by
  intro l
  induction l with
  | nil => rfl
  | cons a l ih =>
    rw [List.filterMap_cons, List.filter_cons]
    by_cases h : a < i
    · have h' : ¬ i ≤ a := by omega
      simp only [if_pos h, h', decide_False, Bool.false_eq_true, if_false]
      exact ih
    · have h' : i ≤ a := by omega
      by_cases h2 : i = a
      · simp only [if_neg h, if_pos h2, h', decide_True, if_true, List.map_cons, ih]
      · simp only [if_neg h, if_neg h2, h', decide_True, if_true, List.map_cons, ih]

/-- The pairwise-cell loop equals a map over the upper-triangle pairs. -/
theorem intersectionCells_eq (names : List String) (S : String → Finset String) :
    intersectionCells names S = (upperPairs names.length).map (fun p =>
      { row := names.getD p.1 "", col := names.getD p.2 ""
        count := if p.1 = p.2 then (S (names.getD p.1 "")).card
          else ((S (names.getD p.1 "")) ∩ (S (names.getD p.2 ""))).card }) := by
  rw [intersectionCells, upperPairs]
  simp only [enum_eq_map_range]
  rw [List.flatMap_map, List.map_flatMap]
  refine congrArg _ (funext fun i => ?_)
  dsimp only [Function.comp]
  rw [List.filterMap_map]
  have hinner : ((fun jb : ℕ × String =>
      if jb.1 < i then none
      else if i = jb.1 then
        some (⟨names.getD i "", jb.2, (S (names.getD i "")).card⟩ : IntersectionCell)
      else
        some ⟨names.getD i "", jb.2,
          ((S (names.getD i "")) ∩ (S jb.2)).card⟩) ∘
      (fun j => (j, names.getD j ""))) = (fun j : ℕ =>
      if j < i then none
      else if i = j then
        some (⟨names.getD i "", names.getD j "", (S (names.getD i "")).card⟩ :
          IntersectionCell)
      else
        some ⟨names.getD i "", names.getD j "",
          ((S (names.getD i "")) ∩ (S (names.getD j ""))).card⟩) := by
    funext j
    rfl
  rw [hinner, filterMap_shift, List.map_map]
  apply List.map_congr_left
  intro j _
  dsimp only [Function.comp]
  by_cases h2 : i = j
  · subst h2
    simp
  · simp [h2]

/-- `_validate_identifier` succeeds only with its input. -/
theorem validateIdentifier_ok_eq {s x : String}
    (h : validateIdentifier s = .ok x) : x = s := by
  rw [validateIdentifier] at h
  split at h
  · injection h with h1
    exact h1.symm
  · exact absurd h (by simp)

/-- Validating a list of identifiers returns the list unchanged. -/
theorem mapM_validate_ok :
    ∀ (l names : List String), l.mapM validateIdentifier = .ok names → names = l := by
  intro l
  induction l with
  | nil =>
    intro names h
    rw [List.mapM_nil] at h
    injection h with h1
    exact h1.symm
  | cons a as ih =>
    intro names h
    rw [List.mapM_cons] at h
    cases hv : validateIdentifier a with
    | error e =>
      rw [hv, error_bind] at h
      exact absurd h (by simp)
    | ok x =>
      rw [hv, ok_bind] at h
      cases hm : as.mapM validateIdentifier with
      | error e =>
        rw [hm, error_bind] at h
        exact absurd h (by simp)
      | ok xs =>
        rw [hm, ok_bind] at h
        injection h with h1
        rw [← h1, validateIdentifier_ok_eq hv, ih xs hm]

/-- A valid identifier list validates to itself. -/
theorem mapM_validate_all_ok (l : List String)
    (h : ∀ d ∈ l, pyIdentMatch d = true) :
    l.mapM validateIdentifier = .ok l := by
  induction l with
  | nil => rw [List.mapM_nil]; rfl
  | cons a as ih =>
    rw [List.mapM_cons]
    have hv : validateIdentifier a = .ok a := by
      rw [validateIdentifier, if_pos (h a (by simp))]
    rw [hv, ok_bind, ih (fun d hd => h d (by simp [hd])), ok_bind]
    rfl

/-- A successful intersection run exposes its per-dataset set table. -/
theorem computeIntersection_ok_form (showNum : ℚ → String) (vdb : VDB)
    (body : IntersectionRequest) (cells : List IntersectionCell)
    (h : computeIntersection showNum vdb body = .ok cells) :
    ∃ A : List (String × Finset String),
      body.datasets.mapM validateIdentifier = .ok body.datasets ∧
      body.datasets.foldlM (regulatorSetsStep showNum vdb body) [] = .ok A ∧
      cells = intersectionCells body.datasets (fun ds => alistGetLastD A ds ∅) := by
  rw [computeIntersection] at h
  cases hm : body.datasets.mapM validateIdentifier with
  | error e =>
    rw [hm, error_bind] at h
    exact absurd h (by simp)
  | ok names =>
    have hn : names = body.datasets := mapM_validate_ok _ _ hm
    subst hn
    rw [hm, ok_bind] at h
    cases hf : body.datasets.foldlM (regulatorSetsStep showNum vdb body) [] with
    | error e =>
      rw [hf, error_bind] at h
      exact absurd h (by simp)
    | ok A =>
      rw [hf, ok_bind] at h
      injection h with h1
      exact ⟨A, rfl, rfl, h1.symm⟩

/-- The fold of the per-dataset resolution appends one entry per dataset,
in order, each carrying exactly that dataset's resolved regulator set. -/
theorem regsets_fold_ok_char (showNum : ℚ → String) (vdb : VDB)
    (body : IntersectionRequest) :
    ∀ (l : List String) (init A : List (String × Finset String)),
    l.foldlM (regulatorSetsStep showNum vdb body) init = .ok A →
    ∃ tl : List (String × Finset String),
      A = init ++ tl ∧ tl.map Prod.fst = l ∧
      ∀ p ∈ tl, resolveDatasetRegulators showNum vdb body p.1 = .ok p.2 := by
  intro l
  induction l with
  | nil =>
    intro init A h
    rw [List.foldlM_nil, pure_eq_ok] at h
    injection h with h1
    exact ⟨[], by rw [← h1]; simp, rfl, by simp⟩
  | cons a l ih =>
    intro init A h
    rw [foldlM_cons_except] at h
    cases hres : resolveDatasetRegulators showNum vdb body a with
    | error e =>
      have hstep : regulatorSetsStep showNum vdb body init a = .error e := by
        show (resolveDatasetRegulators showNum vdb body a >>= fun s =>
          pure (init ++ [(a, s)])) = _
        rw [hres, error_bind]
      rw [hstep, error_bind] at h
      exact absurd h (by simp)
    | ok s =>
      have hstep : regulatorSetsStep showNum vdb body init a =
          .ok (init ++ [(a, s)]) := by
        show (resolveDatasetRegulators showNum vdb body a >>= fun s =>
          pure (init ++ [(a, s)])) = _
        rw [hres, ok_bind, pure_eq_ok]
      rw [hstep, ok_bind] at h
      obtain ⟨tl, hA, hmap, hp⟩ := ih (init ++ [(a, s)]) A h
      refine ⟨(a, s) :: tl, ?_, by simp [hmap], ?_⟩
      · rw [hA, List.append_assoc]
        rfl
      · intro p hp2
        rcases List.mem_cons.mp hp2 with rfl | hmem
        · exact hres
        · exact hp p hmem

/-- The dict lookup over a table whose every entry resolves correctly
returns, for each recorded dataset, exactly its resolved regulator set. -/
theorem alistGetLastD_resolve (showNum : ℚ → String) (vdb : VDB)
    (body : IntersectionRequest) (A : List (String × Finset String))
    (hA : ∀ p ∈ A, resolveDatasetRegulators showNum vdb body p.1 = .ok p.2)
    (ds : String) (hds : ds ∈ A.map Prod.fst) :
    resolveDatasetRegulators showNum vdb body ds =
      .ok (alistGetLastD A ds ∅) := by
  rw [alistGetLastD]
  cases hf : A.reverse.find? (fun p => p.1 = ds) with
  | none =>
    rw [List.find?_eq_none] at hf
    obtain ⟨p, hp, hpds⟩ := List.mem_map.mp hds
    exact absurd (by simp [hpds]) (hf p (List.mem_reverse.mpr hp))
  | some p =>
    have hpred : p.1 = ds := by simpa using List.find?_some hf
    have hmem : p ∈ A := List.mem_reverse.mp (List.mem_of_find?_eq_some hf)
    rw [← hpred]
    exact hA p hmem

/-- C1: every successful intersection result is the upper-triangle matrix —
exactly one cell per index pair `(i, j)` with `i ≤ j < N` (`N(N+1)/2` cells
in total, none in the lower triangle) over a set family `S` that is, on
every requested dataset, exactly the dataset's resolved regulator set
(`resolveDatasetRegulators`): the diagonal cell carries that resolved
set's cardinality, each off-diagonal cell the cardinality of the two
resolved sets' intersection, which is at most the minimum of the two
diagonal counts. -/
theorem intersection_matrix_upper_triangle (showNum : ℚ → String) (vdb : VDB)
    (body : IntersectionRequest) (cells : List IntersectionCell)
    (h : computeIntersection showNum vdb body = .ok cells) :
    cells.length = body.datasets.length * (body.datasets.length + 1) / 2 ∧
    (∀ p : ℕ × ℕ, p ∈ upperPairs body.datasets.length ↔
      p.1 ≤ p.2 ∧ p.2 < body.datasets.length) ∧
    (upperPairs body.datasets.length).Nodup ∧
    ∃ S : String → Finset String,
      (∀ ds ∈ body.datasets,
        resolveDatasetRegulators showNum vdb body ds = .ok (S ds)) ∧
      cells = (upperPairs body.datasets.length).map (fun p =>
        { row := body.datasets.getD p.1 ""
          col := body.datasets.getD p.2 ""
          count := if p.1 = p.2 then (S (body.datasets.getD p.1 "")).card
            else ((S (body.datasets.getD p.1 "")) ∩
              (S (body.datasets.getD p.2 ""))).card }) ∧
      (∀ a b : String,
        ((S a) ∩ (S b)).card ≤ min (S a).card (S b).card) := by
  obtain ⟨A, _, hfold, hcells⟩ :=
    computeIntersection_ok_form showNum vdb body cells h
  obtain ⟨tl, hAeq, hmap, hent⟩ :=
    regsets_fold_ok_char showNum vdb body body.datasets [] A hfold
  have hA : ∀ p ∈ A, resolveDatasetRegulators showNum vdb body p.1 = .ok p.2 := by
    rw [hAeq]
    simpa using hent
  have hkeys : ∀ ds ∈ body.datasets, ds ∈ A.map Prod.fst := by
    intro ds hds
    rw [hAeq, List.nil_append, hmap]
    exact hds
  subst hcells
  rw [intersectionCells_eq]
  refine ⟨?_, fun p => upperPairs_mem _ p, upperPairs_nodup _, ?_⟩
  · rw [List.length_map, upperPairs_length]
  · refine ⟨fun ds => alistGetLastD A ds ∅,
      fun ds hds => alistGetLastD_resolve showNum vdb body A hA ds (hkeys ds hds),
      rfl, fun a b => ?_⟩
    exact le_min
      (Finset.card_le_card (Finset.inter_subset_left))
      (Finset.card_le_card (Finset.inter_subset_right))

/-- C1, witness at a concrete two-dataset run (3 cells). -/
theorem intersection_matrix_upper_triangle_witness :
    c1Cells.length = c1Body.datasets.length * (c1Body.datasets.length + 1) / 2 ∧
    (∀ p : ℕ × ℕ, p ∈ upperPairs c1Body.datasets.length ↔
      p.1 ≤ p.2 ∧ p.2 < c1Body.datasets.length) ∧
    (upperPairs c1Body.datasets.length).Nodup ∧
    ∃ S : String → Finset String,
      (∀ ds ∈ c1Body.datasets,
        resolveDatasetRegulators showQ c1Vdb c1Body ds = .ok (S ds)) ∧
      c1Cells = (upperPairs c1Body.datasets.length).map (fun p =>
        { row := c1Body.datasets.getD p.1 ""
          col := c1Body.datasets.getD p.2 ""
          count := if p.1 = p.2 then (S (c1Body.datasets.getD p.1 "")).card
            else ((S (c1Body.datasets.getD p.1 "")) ∩
              (S (c1Body.datasets.getD p.2 ""))).card }) ∧
      (∀ a b : String,
        ((S a) ∩ (S b)).card ≤ min (S a).card (S b).card) :=
  intersection_matrix_upper_triangle showQ c1Vdb c1Body c1Cells (by rfl)

/-! ## Divergences of the intersection engine (claims C2, C3) -/

/-- C2: with *no* filter clause active (`WHERE` clause empty), the first
resolvable candidate for `rossi_combined` is the supplemental table
`rossi_combined_regmeta`, yet the issued regulator-set query still joins it
to the base metadata table's distinct sample identifiers — contradicting
the claimed direct, join-free read (and the repository's own test
`test_intersection_uses_supplemental_regulators_without_join_when_unfiltered`). -/
theorem intersection_unfiltered_supplemental_join_bug :
    buildWhereSql showQ c2Body "rossi_combined" = .ok "" ∧
    regulatorSqlWalk c2Vdb "rossi_combined" "rossi_combined_meta" ["sample_id"] ""
      (candidateRegulatorTables "rossi_combined") [] none = .ok c2JoinSql ∧
    strContainsSubstr c2JoinSql " JOIN (" = true ∧
    resolveDatasetRegulators showQ c2Vdb c2Body "rossi_combined" =
      .ok (["TF1"].toFinset) :=
  ⟨rfl, rfl, rfl, rfl⟩

/-- C3: for a dataset with zero live candidate tables the run dies with a
raw engine error from `get_fields` on the base metadata table, and for a
dataset whose tables lack a regulator column it dies with the one generic
"no regulator metadata" error — the embedded code has no
`DatasetConfiguredButUnavailable` error at all, contradicting the claimed
distinguished failure shapes (and the repository's own test
`test_intersection_handles_configured_dataset_without_registered_tables`). -/
theorem intersection_unavailable_dataset_error_bug :
    computeIntersection showQ c3Vdb c3Body =
      .error (.engineError "calling_cards_meta") ∧
    computeIntersection showQ c3Vdb2 c3Body =
      .error (.noRegulatorMetadata "calling_cards" ["calling_cards_meta"]) :=
  ⟨rfl, rfl⟩

/-! ## Properties of the correlation matrix (claims C8, C10) -/

/-- Reduction of a skip-or-emit index loop to a filter-then-map. -/
theorem filterMap_if_lt {β : Type} (i : ℕ) (f : ℕ → β) :
    ∀ l : List ℕ,
    l.filterMap (fun j => if j < i then none else some (f j)) =
      (l.filter (fun j => i ≤ j)).map f := by
  intro l
  induction l with
  | nil => rfl
  | cons a l ih =>
    rw [List.filterMap_cons, List.filter_cons]
    by_cases h : a < i
    · have h' : ¬ i ≤ a := by omega
      simp only [if_pos h, h', decide_False, Bool.false_eq_true, if_false]
      exact ih
    · have h' : i ≤ a := by omega
      simp only [if_neg h, h', decide_True, if_true, List.map_cons, ih]

/-- The correlation cell loop equals a map over the upper-triangle pairs. -/
theorem correlationCellsLog_eq (corrFn : List (ℚ × ℚ) → Option ℚ)
    (qual : List (String × ℚ)) (labels : List String) :
    correlationCellsLog corrFn qual labels = (upperPairs labels.length).map
      (fun p =>
        (⟨labels.getD p.1 "", labels.getD p.2 "",
            (correlationPairValue corrFn qual p.1 p.2
              (labels.getD p.1 "") (labels.getD p.2 "")).1⟩,
          (correlationPairValue corrFn qual p.1 p.2
            (labels.getD p.1 "") (labels.getD p.2 "")).2)) := by
  rw [correlationCellsLog, upperPairs]
  simp only [enum_eq_map_range]
  rw [List.flatMap_map, List.map_flatMap]
  refine congrArg _ (funext fun i => ?_)
  dsimp only [Function.comp]
  rw [List.filterMap_map]
  have hinner : ((fun jb : ℕ × String =>
      if jb.1 < i then none
      else
        some ((⟨labels.getD i "", jb.2,
            (correlationPairValue corrFn qual i jb.1 (labels.getD i "") jb.2).1⟩ :
              CorrelationCell),
          (correlationPairValue corrFn qual i jb.1 (labels.getD i "") jb.2).2)) ∘
      (fun j => (j, labels.getD j ""))) = (fun j : ℕ =>
      if j < i then none
      else
        some ((⟨labels.getD i "", labels.getD j "",
            (correlationPairValue corrFn qual i j (labels.getD i "")
              (labels.getD j "")).1⟩ : CorrelationCell),
          (correlationPairValue corrFn qual i j (labels.getD i "")
            (labels.getD j "")).2)) := by
    funext j
    rfl
  rw [hinner, filterMap_if_lt, List.map_map]
  rfl

/-- Self pairs always evaluate to exactly `1.0` and issue no correlation
query. -/
theorem correlationPairValue_self (corrFn : List (ℚ × ℚ) → Option ℚ)
    (qual : List (String × ℚ)) (i : ℕ) (a b : String) :
    correlationPairValue corrFn qual i i a b = (1, false) := by
  rw [correlationPairValue, if_pos rfl]

/-- Cross pairs with fewer than 2 combined observations evaluate to `0.0`
without consulting the correlation aggregate. -/
theorem correlationPairValue_low (corrFn : List (ℚ × ℚ) → Option ℚ)
    (qual : List (String × ℚ)) (i j : ℕ) (a b : String)
    (hij : i ≠ j) (hlen : (pairRows qual a b).length < 2) :
    correlationPairValue corrFn qual i j a b = (0, false) := by
  rw [correlationPairValue, if_neg hij, if_pos hlen]

/-- Cross pairs whose correlation aggregate is undefined evaluate to `0.0`. -/
theorem correlationPairValue_undefined (corrFn : List (ℚ × ℚ) → Option ℚ)
    (qual : List (String × ℚ)) (i j : ℕ) (a b : String)
    (hij : i ≠ j) (hlen : ¬ (pairRows qual a b).length < 2)
    (hc : corrFn (crossPairs (keyVector qual a) (keyVector qual b)) = none) :
    correlationPairValue corrFn qual i j a b = (0, true) := by
  rw [correlationPairValue, if_neg hij, if_neg hlen, hc]

/-- A successful correlation run exposes its grouping column and its cells
as the upper-triangle pair map. -/
theorem correlationMatrix_ok_form (corrFn : List (ℚ × ℚ) → Option ℚ)
    (vdb : AnalysisVDB) (body : CorrelationRequest)
    (resp : CorrelationMatrixResponse)
    (h : correlationMatrix corrFn vdb body = .ok resp) :
    ∃ g : String,
      resp.cells = (correlationCellsLog corrFn
        (qualRows vdb body.db_name g body.value_column) resp.labels).map
          Prod.fst := by
  rw [correlationMatrix] at h
  cases hdb : validateIdentifier body.db_name with
  | error e => rw [hdb, error_bind] at h; exact absurd h (by simp)
  | ok db =>
    have hdbe : db = body.db_name := validateIdentifier_ok_eq hdb
    subst hdbe
    rw [hdb, ok_bind] at h
    cases hvc : validateIdentifier body.value_column with
    | error e => rw [hvc, error_bind] at h; exact absurd h (by simp)
    | ok vc =>
      have hvce : vc = body.value_column := validateIdentifier_ok_eq hvc
      subst hvce
      rw [hvc, ok_bind] at h
      split at h
      · exact absurd h (by simp)
      · cases hgf : vdb.getFields body.db_name with
        | none =>
          rw [hgf] at h
          dsimp only at h
          rw [throw_bind] at h
          exact absurd h (by simp)
        | some fields =>
          rw [hgf] at h
          dsimp only at h
          rw [pureb_bind] at h
          split at h
          · exact absurd h (by simp)
          · cases hgc : resolveGroupColumn vdb body.db_name fields body.group_by with
            | error e => rw [hgc, error_bind] at h; exact absurd h (by simp)
            | ok g =>
              rw [hgc, ok_bind] at h
              refine ⟨g, ?_⟩
              split at h
              · rw [pure_eq_ok] at h
                injection h with h1
                subst h1
                rfl
              · rw [pure_eq_ok] at h
                injection h with h1
                subst h1
                rfl

/-- C8: in every successful correlation matrix, the cells are the
upper-triangle pair map of `correlationPairValue`, whose flag records
whether a correlation query was issued; every self pair (same index on both
axes) is exactly `1.0` with no correlation query issued, every cross pair
with fewer than 2 combined observations is exactly `0.0` (again without a
correlation query), and every cross pair whose aggregate is `NULL`/`NaN`
is exactly `0.0`. -/
theorem correlation_matrix_cell_values (corrFn : List (ℚ × ℚ) → Option ℚ)
    (vdb : AnalysisVDB) (body : CorrelationRequest)
    (resp : CorrelationMatrixResponse)
    (h : correlationMatrix corrFn vdb body = .ok resp) :
    ∃ g : String,
      resp.cells = ((upperPairs resp.labels.length).map (fun p =>
        (⟨resp.labels.getD p.1 "", resp.labels.getD p.2 "",
            (correlationPairValue corrFn
              (qualRows vdb body.db_name g body.value_column) p.1 p.2
              (resp.labels.getD p.1 "") (resp.labels.getD p.2 "")).1⟩ :
              CorrelationCell))) ∧
      (∀ i a b, correlationPairValue corrFn
        (qualRows vdb body.db_name g body.value_column) i i a b = (1, false)) ∧
      (∀ i j a b, i ≠ j →
        (pairRows (qualRows vdb body.db_name g body.value_column) a b).length < 2 →
        correlationPairValue corrFn
          (qualRows vdb body.db_name g body.value_column) i j a b = (0, false)) ∧
      (∀ i j a b, i ≠ j →
        ¬ (pairRows (qualRows vdb body.db_name g body.value_column) a b).length < 2 →
        corrFn (crossPairs
          (keyVector (qualRows vdb body.db_name g body.value_column) a)
          (keyVector (qualRows vdb body.db_name g body.value_column) b)) = none →
        correlationPairValue corrFn
          (qualRows vdb body.db_name g body.value_column) i j a b = (0, true)) := by
  obtain ⟨g, hcells⟩ := correlationMatrix_ok_form corrFn vdb body resp h
  refine ⟨g, ?_,
    fun i a b => correlationPairValue_self _ _ i a b,
    fun i j a b hij hlen => correlationPairValue_low _ _ i j a b hij hlen,
    fun i j a b hij hlen hc =>
      correlationPairValue_undefined _ _ i j a b hij hlen hc⟩
  rw [hcells, correlationCellsLog_eq, List.map_map]
  rfl

/-- C10: a correlation request that passes validation and grouping but
whose dataset has no row with both a non-null group key and a non-null
value succeeds with empty labels and cells. -/
theorem correlation_empty_topk (corrFn : List (ℚ × ℚ) → Option ℚ)
    (vdb : AnalysisVDB) (body : CorrelationRequest) (fields : List String)
    (h1 : pyIdentMatch body.db_name = true)
    (h2 : pyIdentMatch body.value_column = true)
    (h3 : vdb.tables.contains body.db_name = true)
    (h4 : vdb.getFields body.db_name = some fields)
    (h5 : fields.contains body.value_column = true)
    (g : String)
    (h6 : resolveGroupColumn vdb body.db_name fields body.group_by = .ok g)
    (h7 : ∀ r ∈ vdb.rows body.db_name g body.value_column,
      r.1 = none ∨ r.2 = none) :
    correlationMatrix corrFn vdb body =
      .ok ⟨body.db_name, [], [], body.method⟩ := by
  have hqual : qualRows vdb body.db_name g body.value_column = [] := by
    rw [qualRows, List.filterMap_eq_nil_iff]
    intro r hr
    rcases h7 r hr with h | h <;> rcases r with ⟨k, v⟩
    · simp only at h
      subst h
      rfl
    · simp only at h
      subst h
      rcases k with _ | k <;> rfl
  have hvdb : validateIdentifier body.db_name = .ok body.db_name := by
    rw [validateIdentifier, if_pos h1]
  have hvvc : validateIdentifier body.value_column = .ok body.value_column := by
    rw [validateIdentifier, if_pos h2]
  have hmem : body.db_name ∈ vdb.tables := by simpa using h3
  have hmem2 : body.value_column ∈ fields := by simpa using h5
  rw [correlationMatrix, hvdb, ok_bind, hvvc, ok_bind,
    if_neg (by simp [hmem]), h4]
  dsimp only
  rw [pureb_bind, if_neg (by simp [hmem2]), h6, ok_bind]
  rw [show topItems (qualRows vdb body.db_name g body.value_column)
      body.max_items = [] by rw [hqual]; simp [topItems, groupCounts]]
  rfl

/-- C8, witness at a concrete run with two labels and three cells. -/
theorem correlation_matrix_cell_values_witness :
    ∃ g : String,
      c8Resp.cells = ((upperPairs c8Resp.labels.length).map (fun p =>
        (⟨c8Resp.labels.getD p.1 "", c8Resp.labels.getD p.2 "",
            (correlationPairValue (fun _ => none)
              (qualRows c8Vdb c8Body.db_name g c8Body.value_column) p.1 p.2
              (c8Resp.labels.getD p.1 "") (c8Resp.labels.getD p.2 "")).1⟩ :
              CorrelationCell))) ∧
      (∀ i a b, correlationPairValue (fun _ => none)
        (qualRows c8Vdb c8Body.db_name g c8Body.value_column) i i a b
          = (1, false)) ∧
      (∀ i j a b, i ≠ j →
        (pairRows (qualRows c8Vdb c8Body.db_name g c8Body.value_column)
          a b).length < 2 →
        correlationPairValue (fun _ => none)
          (qualRows c8Vdb c8Body.db_name g c8Body.value_column) i j a b
            = (0, false)) ∧
      (∀ i j a b, i ≠ j →
        ¬ (pairRows (qualRows c8Vdb c8Body.db_name g c8Body.value_column)
          a b).length < 2 →
        (fun _ => (none : Option ℚ)) (crossPairs
          (keyVector (qualRows c8Vdb c8Body.db_name g c8Body.value_column) a)
          (keyVector (qualRows c8Vdb c8Body.db_name g c8Body.value_column) b))
            = none →
        correlationPairValue (fun _ => none)
          (qualRows c8Vdb c8Body.db_name g c8Body.value_column) i j a b
            = (0, true)) :=
  correlation_matrix_cell_values (fun _ => none) c8Vdb c8Body c8Resp (by rfl)

/-- C10, witness at a concrete run whose rows all have a null key or a
null value. -/
theorem correlation_empty_topk_witness :
    correlationMatrix (fun _ => none) c10Vdb c10Body =
      .ok ⟨"harbison", [], [], "pearson"⟩ :=
  correlation_empty_topk (fun _ => none) c10Vdb c10Body ["sample_id", "effect"]
    (by decide) (by decide) (by decide) (by rfl) (by decide) "sample_id"
    (by rfl) (by decide)

/-! ## Failure granularity (claim C9) -/

/-- A skipped dataset (absent, or lacking the column) leaves the value set
untouched. -/
theorem filterValuesStep_skip (vdb : AnalysisVDB) (column : String)
    (acc : Finset String) (ds : String)
    (h : (vdb.tables.contains ds &&
      ((vdb.getFields ds).getD []).contains column) = false) :
    filterValuesStep vdb column acc ds = acc := by
  rw [filterValuesStep]
  by_cases h1 : vdb.tables.contains ds = true
  · have h2 : ((vdb.getFields ds).getD []).contains column = false := by
      rw [h1] at h
      simpa using h
    have hm1 : ds ∈ vdb.tables := by simpa using h1
    have hm2 : column ∉ (vdb.getFields ds).getD [] := by simpa using h2
    rw [if_neg (by simp [hm1]), if_pos (by simp [hm2])]
  · have hm1 : ds ∉ vdb.tables := by simpa using h1
    rw [if_pos (by simp [hm1])]

/-- The accumulation loop gives the same value set as the loop restricted
to the datasets that are present with the requested column. -/
theorem foldl_filterValues_filter (vdb : AnalysisVDB) (column : String) :
    ∀ (l : List String) (init : Finset String),
    l.foldl (filterValuesStep vdb column) init =
      (l.filter (fun ds => vdb.tables.contains ds &&
        ((vdb.getFields ds).getD []).contains column)).foldl
          (filterValuesStep vdb column) init := by
  intro l
  induction l with
  | nil => intro init; rfl
  | cons a l ih =>
    intro init
    rw [List.foldl_cons, List.filter_cons]
    cases hg : (vdb.tables.contains a &&
        ((vdb.getFields a).getD []).contains column) with
    | false =>
      rw [filterValuesStep_skip vdb column init a hg]
      simp only [Bool.false_eq_true, if_false]
      exact ih init
    | true =>
      simp only [if_true, List.foldl_cons]
      exact ih _

/-- The fold of the per-dataset regulator resolution fails with the first
failing dataset's error once every earlier dataset resolved. -/
theorem regsets_fold_error (showNum : ℚ → String) (vdb : VDB)
    (body : IntersectionRequest) (ds : String) (post : List String) (e : Err)
    (hds : resolveDatasetRegulators showNum vdb body ds = .error e) :
    ∀ (pre : List String) (init : List (String × Finset String)),
    (∀ d ∈ pre, ∃ s, resolveDatasetRegulators showNum vdb body d = .ok s) →
    (pre ++ ds :: post).foldlM (regulatorSetsStep showNum vdb body) init =
      .error e := by
  intro pre
  induction pre with
  | nil =>
    intro init _
    rw [List.nil_append, foldlM_cons_except]
    have hstep : regulatorSetsStep showNum vdb body init ds = .error e := by
      show (resolveDatasetRegulators showNum vdb body ds >>= fun s =>
        pure (init ++ [(ds, s)])) = .error e
      rw [hds, error_bind]
    rw [hstep, error_bind]
  | cons a pre ih =>
    intro init hpre
    obtain ⟨s, hs⟩ := hpre a (by simp)
    have hstep : regulatorSetsStep showNum vdb body init a =
        .ok (init ++ [(a, s)]) := by
      show (resolveDatasetRegulators showNum vdb body a >>= fun s =>
        pure (init ++ [(a, s)])) = _
      rw [hs, ok_bind, pure_eq_ok]
    rw [List.cons_append, foldlM_cons_except, hstep, ok_bind]
    exact ih _ (fun d hd => hpre d (by simp [hd]))

/-- C9: the two multi-dataset operations diverge in failure granularity.
The filter-value lookup never fails on an absent dataset or missing column
— it returns a (possibly empty) value set equal to the one computed over
just the qualifying datasets.  The intersection fails the entire request
with the first unresolvable dataset's error, returning no cells at all. -/
theorem failure_granularity_asymmetry :
    (∀ (vdb : AnalysisVDB) (body : FilterOptionsRequest),
      (∀ d ∈ body.datasets, pyIdentMatch d = true) →
      pyIdentMatch body.column = true →
      (∃ vs, filterOptionsMulti vdb body = .ok ⟨body.column, vs⟩) ∧
      filterValuesUnion vdb body.column body.datasets =
        filterValuesUnion vdb body.column (body.datasets.filter (fun ds =>
          vdb.tables.contains ds &&
            ((vdb.getFields ds).getD []).contains body.column)))
    ∧ (∀ (showNum : ℚ → String) (vdb : VDB) (body : IntersectionRequest)
        (pre post : List String) (ds : String) (e : Err),
      (∀ d ∈ body.datasets, pyIdentMatch d = true) →
      body.datasets = pre ++ ds :: post →
      (∀ d ∈ pre, ∃ s, resolveDatasetRegulators showNum vdb body d = .ok s) →
      resolveDatasetRegulators showNum vdb body ds = .error e →
      computeIntersection showNum vdb body = .error e) := by
  constructor
  · intro vdb body h1 h2
    constructor
    · have hval : validateIdentifier body.column = .ok body.column := by
        rw [validateIdentifier, if_pos h2]
      rw [filterOptionsMulti, mapM_validate_all_ok body.datasets h1, ok_bind,
        hval, ok_bind]
      by_cases he : body.datasets.isEmpty
      · exact ⟨[], by rw [if_pos he, pure_eq_ok]⟩
      · exact ⟨_, by rw [if_neg he, pure_eq_ok]⟩
    · exact foldl_filterValues_filter vdb body.column body.datasets ∅
  · intro showNum vdb body pre post ds e h1 hsplit hpre hds
    rw [computeIntersection, mapM_validate_all_ok body.datasets h1, ok_bind,
      hsplit, regsets_fold_error showNum vdb body ds post e hds pre [] hpre,
      error_bind]

/-- C9, witness: the filter-value lookup succeeds despite an absent
dataset, while the intersection over an unresolvable dataset fails whole. -/
theorem failure_granularity_asymmetry_witness :
    (∃ vs, filterOptionsMulti c9aVdb c9aBody = .ok ⟨"regulator_symbol", vs⟩) ∧
    computeIntersection showQ c9iVdb c9iBody =
      .error (.engineError "mystery_meta") :=
  ⟨(failure_granularity_asymmetry.1 c9aVdb c9aBody (by decide) (by decide)).1,
    failure_granularity_asymmetry.2 showQ c9iVdb c9iBody [] [] "mystery"
      (.engineError "mystery_meta") (by decide) rfl
      (fun d hd => absurd hd (by simp)) (by rfl)⟩

end TFBP
